import Mathlib

/-
Verification development for the IntelliMCP backend (FastAPI + LangChain +
ChromaDB).  The definitions below are a shallow embedding of the code in
src/backend: pure data flow is modelled as Lean functions, external effects
(the LLM call, the vector index, document loaders, the relational session)
are modelled as explicit parameters describing their outcome, and HTTP
failures are modelled with an `Except` result carrying the status code.
-/

namespace IntelliMCP

/-- JSON values, as produced by parsing the model's raw output
(`JsonOutputParser` / `json.loads`).  Objects are association lists; parsed
Python dicts have unique keys, and `lookupKey` returns the first match. -/
inductive Json where
  | null : Json
  | bool : Bool → Json
  | num : Int → Json
  | str : String → Json
  | arr : List Json → Json
  | obj : List (String × Json) → Json

/-- Key lookup in a JSON object, mirroring Python dict access / `dict.get`. -/
def lookupKey : List (String × Json) → String → Option Json
  | [], _ => none
  | (k, v) :: rest, key => if k = key then some v else lookupKey rest key

/-- Pydantic coercion of a JSON value to `str`: v2 smart mode accepts only a
JSON string for a `str` field. -/
def Json.asString : Json → Option String
  | .str s => some s
  | _ => none

/-- Elementwise validation of a list, failing if any element fails; this is
how pydantic validates `List[...]` fields. -/
def traverseOpt {α β : Type} (f : α → Option β) : List α → Option (List β)
  | [] => some []
  | a :: as =>
    match f a, traverseOpt f as with
    | some b, some bs => some (b :: bs)
    | _, _ => none

/-- Pydantic coercion of a JSON value to `List[str]`. -/
def Json.asStringList : Json → Option (List String)
  | .arr xs => traverseOpt Json.asString xs
  | _ => none

/-- Python truthiness of a JSON value (`if not mcp_record.definition_json`). -/
def Json.truthy : Json → Bool
  | .null => false
  | .bool b => b
  | .num n => n != 0
  | .str s => !(s == "")
  | .arr xs => !xs.isEmpty
  | .obj kvs => !kvs.isEmpty

/-- models.py `McpExampleItem`: one few-shot example, an input/output string
pair. -/
structure McpExampleItem where
  input : String
  output : String

/-- models.py `McpDefinition`: the structured MCP definition schema.
`examples` carries pydantic default `[]`; all other fields are required. -/
structure McpDefinition where
  system_prompt : String
  input_schema_description : String
  output_schema_description : String
  constraints : List String
  examples : List McpExampleItem

/-- Validation of one JSON value against `McpExampleItem`
(`input` and `output` required strings; extra keys ignored by pydantic). -/
def parseExampleItem : Json → Option McpExampleItem
  | .obj kvs =>
    match (lookupKey kvs "input").bind Json.asString,
          (lookupKey kvs "output").bind Json.asString with
    | some i, some o => some ⟨i, o⟩
    | _, _ => none
  | _ => none

/-- Validation of a JSON value against the `McpDefinition` schema, as
performed by `McpDefinition(**generated_json_dict)` in generation.py:153.
The three prompt-description fields and `constraints` are required with the
exact types; `examples` falls back to the pydantic default `[]` when the key
is absent, and must otherwise be a list of valid example items. -/
def McpDefinition.validate : Json → Option McpDefinition
  | .obj kvs =>
    match (lookupKey kvs "system_prompt").bind Json.asString,
          (lookupKey kvs "input_schema_description").bind Json.asString,
          (lookupKey kvs "output_schema_description").bind Json.asString,
          (lookupKey kvs "constraints").bind Json.asStringList,
          (match lookupKey kvs "examples" with
           | none => some ([] : List McpExampleItem)
           | some ej =>
             match ej with
             | .arr xs => traverseOpt parseExampleItem xs
             | _ => none) with
    | some sp, some isd, some osd, some cs, some exs =>
      some ⟨sp, isd, osd, cs, exs⟩
    | _, _, _, _, _ => none
  | _ => none

/-- JSON form of an example item, as serialized by pydantic/`JSONResponse`. -/
def McpExampleItem.toJson (e : McpExampleItem) : Json :=
  .obj [("input", .str e.input), ("output", .str e.output)]

/-- JSON form of a structured definition, as stored in the JSONB column and
returned by the JSON export endpoint.  Lists keep their order; empty lists
serialize as empty arrays, never as null. -/
def McpDefinition.toJson (d : McpDefinition) : Json :=
  .obj [("system_prompt", .str d.system_prompt),
        ("input_schema_description", .str d.input_schema_description),
        ("output_schema_description", .str d.output_schema_description),
        ("constraints", .arr (d.constraints.map Json.str)),
        ("examples", .arr (d.examples.map McpExampleItem.toJson))]

/-- A vector-index entry: chunk text plus the scope metadata attached at
ingestion time (ingestion.py:112-118). -/
structure Chunk where
  page_content : String
  user_id : Nat
  mcp_id : Nat
  source : String
deriving DecidableEq

/-- The metadata-equality filter used by the generation-time search:
`{"$and": [{"mcp_id": mcp_id}, {"user_id": user.id}]}` (generation.py:67-71). -/
structure ScopeFilter where
  user_id : Nat
  mcp_id : Nat

/-- Whether a chunk's metadata satisfies the conjunctive scope filter. -/
def matchesScope (f : ScopeFilter) (c : Chunk) : Bool :=
  c.mcp_id == f.mcp_id && c.user_id == f.user_id

/-- Nearest-neighbor search against the index.  The embedding/ranking step
is external; `ranked` is the store's candidate list in ascending-distance
order for the query.  Chroma applies the metadata filter during search and
returns the top `k` among matching entries. -/
def similaritySearch (ranked : List Chunk) (k : Nat) (filt : Option ScopeFilter) :
    List Chunk :=
  match filt with
  | some f => (ranked.filter (matchesScope f)).take k
  | none => ranked.take k

/-- Outcome of an attempted vector-store / embedding operation.
`embeddingInit` models the `RuntimeError` raised by embedding-client
initialization (mapped to 503 in context.py:80-83); `searchFailure` models
any other exception from the search (mapped to 500). -/
inductive RetrieveError where
  | embeddingInit : RetrieveError
  | searchFailure : RetrieveError
deriving DecidableEq

/-- An HTTP-level failure (`HTTPException`), identified by status code. -/
structure HttpError where
  status : Nat
deriving DecidableEq

set_option linter.unusedVariables false in
/-- context.py `retrieve_context` (POST /context/retrieve): performs
`similarity_search_with_score(query, k)` with NO metadata filter — the
`requester` identity obtained from auth is deliberately unused, mirroring
the endpoint ignoring the authenticated identity in its query.
A `RuntimeError` from embedding initialization becomes 503, any other
search failure becomes 500. -/
def retrieve_context (requester : Nat) (store : Except RetrieveError (List Chunk))
    (k : Nat) : Except HttpError (List Chunk) :=
  match store with
  | .error .embeddingInit => .error ⟨503⟩
  | .error .searchFailure => .error ⟨500⟩
  | .ok ranked => .ok (similaritySearch ranked k none)

/-- The generation-time context search (generation.py:74-78): top 5, with
the conjunctive user/mcp scope filter. -/
def generationRetrieve (ranked : List Chunk) (uid mid : Nat) : List Chunk :=
  similaritySearch ranked 5 (some ⟨uid, mid⟩)

/-- The default context block (generation.py:64). -/
def noContextPlaceholder : String := "No relevant context found for this specific MCP."

/-- The separator joining retrieved chunks (generation.py:80). -/
def contextSeparator : String := "\n\n---\n\n"

/-- The `retrieved_chunks_str` value after step 2 of generation
(generation.py:62-86): on a search failure the exception is caught, logged,
and the placeholder is kept; on success the chunk texts are joined with the
separator, or the placeholder is kept when no chunk matched. -/
def generationContextBlock (store : Except RetrieveError (List Chunk))
    (uid mid : Nat) : String :=
  match store with
  | .error _ => noContextPlaceholder
  | .ok ranked =>
    match generationRetrieve ranked uid mid with
    | [] => noContextPlaceholder
    | results => String.intercalate contextSeparator (results.map Chunk.page_content)

/-- models.py `Mcp`: the project record (timestamps as abstract ticks). -/
structure Mcp where
  id : Nat
  owner_id : Nat
  name : String
  domain : String
  goal : String
  roles : String
  constraints : Option String
  generated_content : Option String
  definition_json : Option Json
  created_at : Nat
  updated_at : Nat

/-- Failure of the LLM chain up to and including the JSON parse: either the
model invocation itself failed, or its raw output was not parseable JSON
(`OutputParserException`).  `JsonOutputParser` performs no schema
validation — any parseable JSON is returned as a plain dict. -/
inductive ChainError where
  | modelFailure : ChainError
  | nonJsonOutput : ChainError
deriving DecidableEq

/-- The human-message prompt of the generation chain with all template
variables substituted (generation.py:107-115). -/
def humanPrompt (m : Mcp) (ctx : String) : String :=
  "Based on the following details, generate the MCP JSON object:\n\n" ++
  "**MCP Name:** " ++ m.name ++ "\n" ++
  "**Domain:** " ++ m.domain ++ "\n" ++
  "**Primary Goal:** " ++ m.goal ++ "\n" ++
  "**Key Roles:** " ++ m.roles ++ "\n\n" ++
  "**Relevant Context:**\n---\n" ++ ctx ++ "\n---\n\n" ++
  "Respond ONLY with the valid JSON object matching the schema provided in the system prompt:"

/-- Result of one generation request: the project record as persisted after
the request, and the HTTP response. -/
structure GenOutcome where
  record : Mcp
  response : Except HttpError McpDefinition

/-- generation.py `generate_mcp_json` (POST /generate/mcp/mcp_id), for a
fetched record `m` owned by the requester.  `store` is the vector index's
ranked candidate list (or the failure of the search attempt); `llm` maps the
substituted human prompt to the chain outcome (parsed JSON or chain error);
`now` is `datetime.utcnow()` at save time.

Control flow mirrors the source exactly: the context search is wrapped in
its own try/except whose handler only logs (lines 85-86); a chain failure
reaches the outer handler before any record mutation (rollback is a no-op);
on chain success the parsed dict is assigned and committed (lines 146-149)
BEFORE `McpDefinition(**generated_json_dict)` validates it for the response
(line 153), so a schema-invalid dict is already committed when the handler's
rollback runs, and the record keeps the committed value. -/
def generate_mcp_json (m : Mcp) (store : Except RetrieveError (List Chunk))
    (llm : String → Except ChainError Json) (now : Nat) : GenOutcome :=
  match llm (humanPrompt m (generationContextBlock store m.owner_id m.id)) with
  | .error _ => ⟨m, .error ⟨500⟩⟩
  | .ok j =>
    match McpDefinition.validate j with
    | some d => ⟨{ m with definition_json := some j, updated_at := now }, .ok d⟩
    | none => ⟨{ m with definition_json := some j, updated_at := now }, .error ⟨500⟩⟩

/-- Upload content types: the allow-list of ingestion.py:57-61 plus a
representative disallowed type. -/
inductive ContentType where
  | pdf : ContentType
  | docx : ContentType
  | plainText : ContentType
  | other : ContentType
deriving DecidableEq

/-- Whether a loader exists for the content type (membership in
`allowed_content_types`). -/
def allowedContentType : ContentType → Bool
  | .other => false
  | _ => true

/-- Splitter window size (ingestion.py:105). -/
def chunk_size : Nat := 1000

/-- Splitter window overlap (ingestion.py:105). -/
def chunk_overlap : Nat := 200

/-- Modelled from the spec: `RecursiveCharacterTextSplitter` is LangChain
library code not present under src/; the spec fixes its configuration to
1000-unit windows with 200-unit overlap (unit = character), recursive
separators only moving break points onto natural boundaries.  For
unstructured text this is a sliding character window of `chunk_size`
advancing by `chunk_size - chunk_overlap`.  The first argument is fuel
bounding the recursion; `splitText` supplies enough. -/
def splitWindowsAux : Nat → List Char → List (List Char)
  | _, [] => []
  | 0, s => [s]
  | fuel + 1, s =>
    if s.length ≤ chunk_size then [s]
    else s.take chunk_size :: splitWindowsAux fuel (s.drop (chunk_size - chunk_overlap))

/-- Modelled from the spec: splitting one extracted text into overlapping
windows (see `splitWindowsAux`). -/
def splitText (s : List Char) : List (List Char) :=
  splitWindowsAux s.length s

/-- `split_documents`: split every loaded document and concatenate. -/
def splitDocuments (docs : List String) : List String :=
  docs.flatMap (fun d => (splitText d.data).map fun c => String.mk c)

/-- Outcome of the format-specific document loader (`loader.load()`):
`failure` when the loader raises, otherwise the list of extracted document
texts (possibly empty). -/
inductive LoadOutcome where
  | failure : LoadOutcome
  | loaded : List String → LoadOutcome

/-- Result of one ingestion request: HTTP status, the chunks actually
written to the vector index (in write order), and the response message. -/
structure IngestResult where
  status : Nat
  writes : List Chunk
  message : String

/-- Success message of ingestion (ingestion.py:137). -/
def ingestSuccessMessage (n mid : Nat) : String :=
  "File processed and " ++ toString n ++ " chunks stored successfully for MCP " ++
  toString mid ++ "."

/-- ingestion.py `ingest_file` (POST /ingest/upload/file/mcp_id).
Unsupported content types are rejected with 400 before any processing; a
loader exception becomes 500; an empty extraction returns 201 with a
"no content" message and performs no index write; otherwise the text is
split, every chunk is stamped with the requester's user id, the mcp id and
the filename, and chunks are written one at a time — `writeFailAt = some i`
models the vector store raising on the i-th write, which leaves the first
`i` chunks committed and returns 500. -/
def ingest_file (ct : ContentType) (filename : String) (uid mid : Nat)
    (load : LoadOutcome) (writeFailAt : Option Nat) : IngestResult :=
  if allowedContentType ct = false then
    ⟨400, [], "Invalid file type."⟩
  else
    match load with
    | .failure => ⟨500, [], "Error processing document"⟩
    | .loaded [] => ⟨201, [], "File received, but no content could be extracted."⟩
    | .loaded docs =>
      let texts := splitDocuments docs
      let chunks := texts.map fun t => Chunk.mk t uid mid filename
      match writeFailAt with
      | some i =>
        if i < chunks.length then
          ⟨500, chunks.take i, "Error storing document embeddings"⟩
        else ⟨201, chunks, ingestSuccessMessage chunks.length mid⟩
      | none => ⟨201, chunks, ingestSuccessMessage chunks.length mid⟩

/-- mcp.py `McpUpdateRequest` under `model_dump(exclude_unset=True)`:
`none` models a field absent from the request body; for the three
Optional-typed record fields an explicit JSON null is representable as
`some none`.  (Explicit null on the non-nullable seed fields would be
rejected by the database at commit; that path is outside the claims.) -/
structure McpUpdateRequest where
  generated_content : Option (Option String)
  constraints : Option (Option String)
  definition_json : Option (Option Json)
  name : Option String
  domain : Option String
  goal : Option String
  roles : Option String

/-- The all-unset update request (an empty request body). -/
def emptyUpdateRequest : McpUpdateRequest :=
  ⟨none, none, none, none, none, none, none⟩

/-- mcp.py `update_mcp` (PUT /mcp/mcp_id) on a fetched owned record: every
field present in the request body is copied onto the record (all request
fields exist on the model, so `hasattr` always holds); `updated_at` is set
to `now` exactly when at least one field was present, and in that case the
record is committed.  Returns the resulting record and whether a database
write occurred. -/
def update_mcp (m : Mcp) (req : McpUpdateRequest) (now : Nat) : Mcp × Bool :=
  if req.generated_content.isSome || req.constraints.isSome ||
      req.definition_json.isSome || req.name.isSome || req.domain.isSome ||
      req.goal.isSome || req.roles.isSome then
    ({ m with
        generated_content := req.generated_content.getD m.generated_content,
        constraints := req.constraints.getD m.constraints,
        definition_json := req.definition_json.getD m.definition_json,
        name := req.name.getD m.name,
        domain := req.domain.getD m.domain,
        goal := req.goal.getD m.goal,
        roles := req.roles.getD m.roles,
        updated_at := now }, true)
  else (m, false)

/-- mcp.py `export_mcp_json` (GET /mcp/mcp_id/export/json): 404 when the
record is missing (or not owned) or when `definition_json` is falsy
(absent, or an empty/falsy JSON value under Python truthiness); otherwise
the stored JSON value is returned unchanged as the response content. -/
def export_mcp_json (record : Option Mcp) : Except HttpError Json :=
  match record with
  | none => .error ⟨404⟩
  | some m =>
    match m.definition_json with
    | none => .error ⟨404⟩
    | some j => if Json.truthy j then .ok j else .error ⟨404⟩

/-- Environment configuration read by the vector store service
(vector_store_services.py:29-30,53). -/
structure ChromaEnv where
  chroma_host : Option String
  chroma_port : String
  chroma_local_path : Option String

/-- The constructed ChromaDB client: remote HTTP client or local
persistent on-disk client — one or the other, never both. -/
inductive ChromaClient where
  | http : String → String → ChromaClient
  | persistent : String → ChromaClient
deriving DecidableEq

/-- Failure of remote client construction: the connection/heartbeat check
raised and the exception was re-raised (vector_store_services.py:44-50). -/
inductive ConnectError where
  | heartbeatFailed : ConnectError
deriving DecidableEq

/-- vector_store_services.py `get_vector_store`: when CHROMA_HOST is set, an
HTTP client is constructed and `client.heartbeat()` must succeed, else the
exception propagates (no fallback to local storage); when CHROMA_HOST is
unset, a local persistent client at CHROMA_LOCAL_PATH (default
"./chroma_data") is constructed.  `remoteReachable` models whether the
heartbeat succeeds.  (The surrounding `lru_cache` makes this first-use
construction happen once per process.) -/
def get_vector_store (env : ChromaEnv) (remoteReachable : Bool) :
    Except ConnectError ChromaClient :=
  match env.chroma_host with
  | some host =>
    if remoteReachable then .ok (.http host env.chroma_port)
    else .error .heartbeatFailed
  | none => .ok (.persistent (env.chroma_local_path.getD "./chroma_data"))

/-- Field access on a JSON object: the value stored under a key, if the
value is an object holding that key. -/
def jsonField (j : Json) (key : String) : Option Json :=
  match j with
  | .obj kvs => lookupKey kvs key
  | _ => none

/-- Whether a JSON object carries the given key. -/
def hasKey (j : Json) (key : String) : Bool :=
  (jsonField j key).isSome

/-- A sample chunk ingested by user 1 for mcp 1. -/
def ck0 : Chunk := ⟨"alpha", 1, 1, "doc.txt"⟩

/-- A chunk carrying tenant 1 / project 7 scope metadata, used to exhibit
cross-scope leakage through the unfiltered standalone retrieval endpoint. -/
def leakedChunk : Chunk := ⟨"tenant-one confidential notes", 1, 7, "notes.txt"⟩

/-- A sample structured definition with empty constraint and example
lists. -/
def d0 : McpDefinition :=
  ⟨"You are a helpful agent.", "Plain text question.", "Plain text answer.", [], []⟩

/-- A sample project record owned by user 3, with no structured definition
generated yet. -/
def m0 : Mcp :=
  ⟨7, 3, "Support Bot", "Customer Support", "Answer customer questions", "assistant",
   none, none, none, 0, 0⟩

/-- A sample structured definition exercising the export round trip with
empty lists. -/
def d1 : McpDefinition := ⟨"Do the task.", "free text", "free text", [], []⟩

/-- A sample project record that already holds the stored JSON form of
`d1`. -/
def m1 : Mcp := ⟨2, 3, "Exporter", "ops", "export things", "admin", none, none,
  some d1.toJson, 0, 0⟩

/-- A schema-valid generation output in which the model omitted the
optional `examples` key. -/
def noExamplesJson : Json :=
  .obj [("system_prompt", .str "You are a tutor."),
        ("input_schema_description", .str "A question."),
        ("output_schema_description", .str "An answer."),
        ("constraints", .arr [.str "Be concise."])]

/-- Claim C5: in the generation prompt's user instruction the context block
is the retrieved chunks joined with the explicit separator when at least
one chunk was retrieved, and exactly the fixed neutral placeholder sentence
(never the empty string) when zero chunks were retrieved — including when
the retrieval attempt itself failed; moreover the block is spliced verbatim
into the human prompt. -/
theorem generation_context_block_spec (ranked : List Chunk) (uid mid : Nat) :
    (generationRetrieve ranked uid mid = [] →
      generationContextBlock (.ok ranked) uid mid = noContextPlaceholder) ∧
    (generationRetrieve ranked uid mid ≠ [] →
      generationContextBlock (.ok ranked) uid mid =
        String.intercalate contextSeparator
          ((generationRetrieve ranked uid mid).map Chunk.page_content)) ∧
    noContextPlaceholder ≠ "" ∧
    (∀ err : RetrieveError,
      generationContextBlock (.error err) uid mid = noContextPlaceholder) ∧
    (∀ (m : Mcp) (ctx : String), ∃ pre suf, humanPrompt m ctx = pre ++ ctx ++ suf) := by
  refine ⟨?_, ?_, ?_, ?_, ?_⟩
  · intro h
    simp [generationContextBlock, h]
  · intro h
    cases hres : generationRetrieve ranked uid mid with
    | nil => exact absurd hres h
    | cons a as => simp [generationContextBlock, hres]
  · decide
  · intro err
    rfl
  · intro m ctx
    refine ⟨"Based on the following details, generate the MCP JSON object:\n\n" ++
      "**MCP Name:** " ++ m.name ++ "\n" ++ "**Domain:** " ++ m.domain ++ "\n" ++
      "**Primary Goal:** " ++ m.goal ++ "\n" ++ "**Key Roles:** " ++ m.roles ++ "\n\n" ++
      "**Relevant Context:**\n---\n",
      "\n---\n\n" ++
      "Respond ONLY with the valid JSON object matching the schema provided in the system prompt:",
      ?_⟩
    simp [humanPrompt, String.append_assoc]

/-- Witness for C5 at concrete inputs: an empty retrieval renders the
placeholder, a singleton retrieval renders the joined chunk text. -/
theorem generation_context_block_spec_witness :
    generationContextBlock (.ok []) 1 1 = noContextPlaceholder ∧
    generationContextBlock (.ok [ck0]) 1 1 =
      String.intercalate contextSeparator ([ck0].map Chunk.page_content) :=
  ⟨(generation_context_block_spec [] 1 1).1 rfl,
   (generation_context_block_spec [ck0] 1 1).2.1 (by decide)⟩

/-- Claim C7 counterexample: an allowed-type document whose loader raises
(an unparseable PDF) makes the ingest operation fail with a 500 error, so
"an unparseable-but-allowed-type document never causes the ingest operation
to fail" is false on the code (ingestion.py:100-102). -/
theorem ingest_loader_exception_fails :
    (ingest_file .pdf "broken.pdf" 1 1 .failure none).status = 500 ∧
    (ingest_file .pdf "broken.pdf" 1 1 .failure none).writes = [] :=
  ⟨rfl, rfl⟩

/-- Claim C7 (amended): if loading an allowed-type document yields zero
text units, ingestion returns the non-error "nothing extracted" result with
zero chunks stored and no vector-index write; a loader exception, by
contrast, is a 500 error. -/
theorem ingest_empty_extraction_spec (ct : ContentType) (fn : String)
    (uid mid : Nat) (wf : Option Nat) (hct : allowedContentType ct = true) :
    (ingest_file ct fn uid mid (.loaded []) wf).status = 201 ∧
    (ingest_file ct fn uid mid (.loaded []) wf).writes = [] ∧
    (ingest_file ct fn uid mid (.loaded []) wf).message =
      "File received, but no content could be extracted." := by
  simp [ingest_file, hct]

/-- Witness for C7 (amended) at a concrete empty plain-text upload. -/
theorem ingest_empty_extraction_spec_witness :
    (ingest_file .plainText "empty.txt" 1 2 (.loaded []) none).status = 201 ∧
    (ingest_file .plainText "empty.txt" 1 2 (.loaded []) none).writes = [] ∧
    (ingest_file .plainText "empty.txt" 1 2 (.loaded []) none).message =
      "File received, but no content could be extracted." :=
  ingest_empty_extraction_spec .plainText "empty.txt" 1 2 none rfl

/-- Claim C8: with a remote host configured, first-use construction either
passes the heartbeat and yields the remote HTTP client or raises; it never
falls back to a local persistent store, and the local store is constructed
exactly when no remote host is configured. -/
theorem vector_store_construction_spec (env : ChromaEnv) (reachable : Bool) :
    (∀ host, env.chroma_host = some host → reachable = false →
      get_vector_store env reachable = .error .heartbeatFailed) ∧
    (∀ host, env.chroma_host = some host → reachable = true →
      get_vector_store env reachable = .ok (.http host env.chroma_port)) ∧
    (env.chroma_host = none →
      get_vector_store env reachable =
        .ok (.persistent (env.chroma_local_path.getD "./chroma_data"))) ∧
    (∀ path, get_vector_store env reachable = .ok (.persistent path) →
      env.chroma_host = none) := by
  refine ⟨?_, ?_, ?_, ?_⟩
  · intro host hh hr
    simp [get_vector_store, hh, hr]
  · intro host hh hr
    simp [get_vector_store, hh, hr]
  · intro hh
    simp [get_vector_store, hh]
  · intro path h
    cases hh : env.chroma_host with
    | none => rfl
    | some host =>
      rw [get_vector_store, hh] at h
      cases hr : reachable with
      | true => rw [hr] at h; simp at h
      | false => rw [hr] at h; simp at h

/-- Every window produced by the splitter is at most `chunk_size`
characters, provided the fuel covers the text length. -/
lemma splitWindowsAux_chunk_le (fuel : Nat) :
    ∀ s : List Char, s.length ≤ 800 * fuel + 1000 →
      ∀ c ∈ splitWindowsAux fuel s, c.length ≤ 1000 := by
  induction fuel with
  | zero =>
    intro s hs c hc
    cases s with
    | nil => simp [splitWindowsAux] at hc
    | cons a as =>
      simp [splitWindowsAux] at hc
      subst hc
      simpa using hs
  | succ n ih =>
    intro s hs c hc
    cases s with
    | nil => simp [splitWindowsAux] at hc
    | cons a as =>
      simp only [splitWindowsAux] at hc
      by_cases h1 : (a :: as).length ≤ chunk_size
      · rw [if_pos h1] at hc
        simp only [List.mem_singleton] at hc
        subst hc
        simpa [chunk_size] using h1
      · rw [if_neg h1] at hc
        rcases List.mem_cons.mp hc with hc | hc
        · subst hc
          simp [chunk_size]
        · refine ih ((a :: as).drop (chunk_size - chunk_overlap)) ?_ c hc
          simp only [List.length_drop, chunk_size, chunk_overlap] at *
          omega

/-- The splitter never returns zero windows for nonempty text. -/
lemma splitWindowsAux_ne_nil (fuel : Nat) :
    ∀ s : List Char, s ≠ [] → splitWindowsAux fuel s ≠ [] := by
  cases fuel with
  | zero =>
    intro s hne
    cases s with
    | nil => exact absurd rfl hne
    | cons a as => simp [splitWindowsAux]
  | succ n =>
    intro s hne
    cases s with
    | nil => exact absurd rfl hne
    | cons a as =>
      simp only [splitWindowsAux]
      split
      · simp
      · simp

/-- Window-count bounds for the splitter: with `n` produced windows the
text length lies in the half-open band `(800*(n-1), 800*(n-1)+1000]`. -/
lemma splitWindowsAux_count (fuel : Nat) :
    ∀ s : List Char, s ≠ [] → s.length ≤ 800 * fuel + 1000 →
      800 * ((splitWindowsAux fuel s).length - 1) < s.length ∧
      s.length ≤ 800 * ((splitWindowsAux fuel s).length - 1) + 1000 := by
  induction fuel with
  | zero =>
    intro s hne hs
    cases s with
    | nil => exact absurd rfl hne
    | cons a as =>
      simp only [splitWindowsAux, List.length_cons, List.length_nil] at hs ⊢
      omega
  | succ n ih =>
    intro s hne hs
    cases s with
    | nil => exact absurd rfl hne
    | cons a as =>
      by_cases h1 : (a :: as).length ≤ chunk_size
      · simp only [splitWindowsAux]
        rw [if_pos h1]
        simp only [List.length_cons, List.length_nil] at h1 ⊢
        simp only [chunk_size] at h1
        omega
      · have hdroplen : ((a :: as).drop (chunk_size - chunk_overlap)).length =
            (a :: as).length - 800 := by
          simp [chunk_size, chunk_overlap]
        have hlen : 1000 < (a :: as).length := by
          simp only [chunk_size] at h1
          omega
        have hne' : (a :: as).drop (chunk_size - chunk_overlap) ≠ [] := by
          rw [← List.length_pos, hdroplen]
          omega
        have hle' : ((a :: as).drop (chunk_size - chunk_overlap)).length ≤
            800 * n + 1000 := by
          rw [hdroplen]
          omega
        have hrec := ih _ hne' hle'
        rw [hdroplen] at hrec
        simp only [splitWindowsAux]
        rw [if_neg h1]
        have hX := List.length_pos.mpr (splitWindowsAux_ne_nil n _ hne')
        simp only [List.length_cons] at hrec hlen ⊢
        omega

/-- Claim C6 (spec-modelled splitter): every produced chunk has length at
most 1000 characters, a 3000-character unstructured text splits into
between 3 and 4 windows (here: exactly 4), and ingesting one such document
writes exactly 4 chunks to the index. -/
theorem chunking_window_spec :
    (∀ s : List Char, ∀ c ∈ splitText s, c.length ≤ 1000) ∧
    (∀ s : List Char, s.length = 3000 →
      3 ≤ (splitText s).length ∧ (splitText s).length ≤ 4) ∧
    (∀ (fn src : String) (uid mid : Nat), src.data.length = 3000 →
      (ingest_file .plainText fn uid mid (.loaded [src]) none).writes.length = 4) := by
  have hcount : ∀ s : List Char, s.length = 3000 → (splitText s).length = 4 := by
    intro s h3
    have hne : s ≠ [] := by
      rw [← List.length_pos]
      omega
    have := splitWindowsAux_count s.length s hne (by omega)
    rw [splitText] at *
    omega
  refine ⟨?_, ?_, ?_⟩
  · intro s c hc
    exact splitWindowsAux_chunk_le s.length s (by omega) c hc
  · intro s h3
    rw [hcount s h3]
    omega
  · intro fn src uid mid h3
    have hw : (ingest_file .plainText fn uid mid (.loaded [src]) none).writes =
        (((splitText src.data).map fun c => String.mk c) ++ []).map
          (fun t => Chunk.mk t uid mid fn) := rfl
    rw [hw, List.append_nil, List.length_map, List.length_map, hcount src.data h3]

/-- Witness for C6 at the concrete 3000-character text: between 3 and 4
windows, and the ingested write count is 4. -/
theorem chunking_window_spec_witness :
    (3 ≤ (splitText (List.replicate 3000 'a')).length ∧
      (splitText (List.replicate 3000 'a')).length ≤ 4) ∧
    (ingest_file .plainText "big.txt" 1 2
      (.loaded [String.mk (List.replicate 3000 'a')]) none).writes.length = 4 :=
  ⟨chunking_window_spec.2.1 (List.replicate 3000 'a') (by rw [List.length_replicate]),
   chunking_window_spec.2.2 "big.txt" (String.mk (List.replicate 3000 'a')) 1 2
     (by show (List.replicate 3000 'a').length = 3000; rw [List.length_replicate])⟩

/-- Every chunk returned by the generation-time scoped search carries the
requesting user's id and the target mcp id. -/
lemma mem_generationRetrieve_scope (ranked : List Chunk) (uid mid : Nat)
    (c : Chunk) (hc : c ∈ generationRetrieve ranked uid mid) :
    c.user_id = uid ∧ c.mcp_id = mid := by
  unfold generationRetrieve similaritySearch at hc
  have hc' := List.take_subset 5 _ hc
  rcases List.mem_filter.mp hc' with ⟨-, hmatch⟩
  unfold matchesScope at hmatch
  simp only [Bool.and_eq_true, beq_iff_eq] at hmatch
  exact ⟨hmatch.2, hmatch.1⟩

/-- Claim C1 counterexample: the standalone /context/retrieve endpoint runs
its nearest-neighbor search with no metadata filter, so a request made by
user 2 returns a chunk that was ingested with scope user 1 / mcp 7 — the
scoping invariant fails on this retrieval path. -/
theorem retrieve_context_cross_tenant_leak :
    retrieve_context 2 (.ok [leakedChunk]) 4 = .ok [leakedChunk] ∧
    leakedChunk.user_id = 1 ∧ (1 : Nat) ≠ 2 :=
  ⟨rfl, rfl, by decide⟩

/-- Claim C1 (amended): ingestion stamps every written chunk with the
requesting user's id and the mcp id, and the generation-time similarity
search filters on both, so that path never returns a chunk of a different
scope; the standalone /context/retrieve endpoint, however, applies no
scope filter. -/
theorem scoped_retrieval_spec :
    (∀ (ranked : List Chunk) (uid mid : Nat) (c : Chunk),
      c ∈ generationRetrieve ranked uid mid → c.user_id = uid ∧ c.mcp_id = mid) ∧
    (∀ (ct : ContentType) (fn : String) (uid mid : Nat) (load : LoadOutcome)
        (wf : Option Nat) (c : Chunk),
      c ∈ (ingest_file ct fn uid mid load wf).writes →
      c.user_id = uid ∧ c.mcp_id = mid) ∧
    (∀ (ranked : List Chunk) (uid uid' mid mid' : Nat) (c : Chunk),
      c ∈ generationRetrieve ranked uid' mid' → c.user_id = uid → c.mcp_id = mid →
      uid' = uid ∧ mid' = mid) := by
  refine ⟨?_, ?_, ?_⟩
  · exact mem_generationRetrieve_scope
  · intro ct fn uid mid load wf c hc
    unfold ingest_file at hc
    split at hc
    · simp at hc
    · split at hc
      · simp at hc
      · simp at hc
      · dsimp only at hc
        split at hc
        · split at hc
          · have hc' := List.take_subset _ _ hc
            rcases List.mem_map.mp hc' with ⟨t, -, rfl⟩
            exact ⟨rfl, rfl⟩
          · rcases List.mem_map.mp hc with ⟨t, -, rfl⟩
            exact ⟨rfl, rfl⟩
        · rcases List.mem_map.mp hc with ⟨t, -, rfl⟩
          exact ⟨rfl, rfl⟩
  · intro ranked uid uid' mid mid' c hc hu hm
    rcases mem_generationRetrieve_scope ranked uid' mid' c hc with ⟨h1, h2⟩
    constructor
    · rw [← hu, h1]
    · rw [← hm, h2]

/-- Witness for C1 (amended) at a concrete store: the chunk returned by the
scoped generation search carries the requested scope. -/
theorem scoped_retrieval_spec_witness :
    ck0.user_id = 1 ∧ ck0.mcp_id = 1 :=
  scoped_retrieval_spec.1 [ck0] 1 1 ck0 (by decide)

/-- Witness for C8: an unreachable configured remote raises; an
unconfigured remote yields the local persistent store at the default
path. -/
theorem vector_store_construction_spec_witness :
    get_vector_store ⟨some "db.example", "8000", none⟩ false =
      .error .heartbeatFailed ∧
    get_vector_store ⟨none, "8000", none⟩ false =
      .ok (.persistent "./chroma_data") :=
  ⟨(vector_store_construction_spec ⟨some "db.example", "8000", none⟩ false).1
      "db.example" rfl rfl,
   (vector_store_construction_spec ⟨none, "8000", none⟩ false).2.2.1 rfl⟩

/-- Claim C4 counterexample: a Vector Index Gateway failure during the
generation-time similarity search is caught and discarded
(generation.py:85-86) and the request continues and reports success with a
generated definition — the failure never reaches the request boundary. -/
theorem generation_swallows_retrieval_failure :
    (generate_mcp_json m0 (.error .searchFailure) (fun _ => .ok d0.toJson) 5).response
      = .ok d0 := rfl

/-- Claim C4 (amended): Structured Generator chain failures propagate to
the request boundary as a 500 with no record mutation, and failures of the
standalone retrieval endpoint propagate as distinguishable kinds (503 for
embedding initialization, 500 otherwise); a failure of the generation-time
similarity search, however, is caught, replaced by the placeholder context
block, and the request can still complete successfully. -/
theorem failure_propagation_spec :
    (∀ (m : Mcp) (store : Except RetrieveError (List Chunk))
        (llm : String → Except ChainError Json) (now : Nat) (e : ChainError),
      llm (humanPrompt m (generationContextBlock store m.owner_id m.id)) = .error e →
      (generate_mcp_json m store llm now).response = .error ⟨500⟩ ∧
      (generate_mcp_json m store llm now).record = m) ∧
    (∀ (r k : Nat), retrieve_context r (.error .embeddingInit) k = .error ⟨503⟩) ∧
    (∀ (r k : Nat), retrieve_context r (.error .searchFailure) k = .error ⟨500⟩) ∧
    (∀ (m : Mcp) (err : RetrieveError) (llm : String → Except ChainError Json)
        (now : Nat) (j : Json) (d : McpDefinition),
      llm (humanPrompt m noContextPlaceholder) = .ok j →
      McpDefinition.validate j = some d →
      (generate_mcp_json m (.error err) llm now).response = .ok d) := by
  refine ⟨?_, ?_, ?_, ?_⟩
  · intro m store llm now e h
    constructor
    · simp [generate_mcp_json, h]
    · simp [generate_mcp_json, h]
  · intro r k
    rfl
  · intro r k
    rfl
  · intro m err llm now j d hllm hval
    have hctx : generationContextBlock (.error err) m.owner_id m.id =
        noContextPlaceholder := rfl
    simp [generate_mcp_json, hctx, hllm, hval]

/-- Witness for C4 (amended): an embedding failure at the standalone
endpoint surfaces as 503, and a model failure during generation surfaces
as 500 leaving the record untouched. -/
theorem failure_propagation_spec_witness :
    retrieve_context 1 (.error .embeddingInit) 4 = .error ⟨503⟩ ∧
    (generate_mcp_json m0 (.ok []) (fun _ => .error .modelFailure) 5).response
      = .error ⟨500⟩ :=
  ⟨failure_propagation_spec.2.1 1 4,
   (failure_propagation_spec.1 m0 (.ok []) (fun _ => .error .modelFailure) 5
     .modelFailure rfl).1⟩

/-- Claim C2: evaluating the generation endpoint at the failing input — the
model returns the parseable but schema-invalid JSON object with no keys,
on a project whose stored definition is null — shows the malformed value
persisted on the record while the request reports failure: the commit at
generation.py:149 happens before the validation at line 153, so the
rollback in the handler cannot undo it.  The model-error and
non-JSON-output failure cases do leave the record unchanged. -/
theorem generation_persists_malformed_on_schema_mismatch :
    (generate_mcp_json m0 (.ok []) (fun _ => .ok (.obj [])) 5).record.definition_json
      = some (.obj []) ∧
    (generate_mcp_json m0 (.ok []) (fun _ => .ok (.obj [])) 5).response
      = .error ⟨500⟩ ∧
    m0.definition_json = none ∧
    McpDefinition.validate (.obj []) = none :=
  ⟨rfl, rfl, rfl, rfl⟩

/-- Claim C3 counterexample: a generation run in which the model omits the
optional `examples` key completes successfully (pydantic supplies the
default empty list), yet the persisted JSON lacks the `examples` key — so
"never omitted keys" fails for the persisted result. -/
theorem generation_success_may_omit_examples_key :
    (generate_mcp_json m0 (.ok []) (fun _ => .ok noExamplesJson) 5).response
      = .ok ⟨"You are a tutor.", "A question.", "An answer.", ["Be concise."], []⟩ ∧
    (generate_mcp_json m0 (.ok []) (fun _ => .ok noExamplesJson) 5).record.definition_json
      = some noExamplesJson ∧
    hasKey noExamplesJson "examples" = false :=
  ⟨rfl, rfl, rfl⟩

/-- Claim C3 (amended): every successful generation run produced a chain
output that was parsed as JSON and then validated against the
`McpDefinition` schema, and the persisted value is exactly that JSON
object; its four required keys are always present with the required types
(strings, and a list of strings for `constraints`), and when the optional
`examples` key is absent the returned definition carries the empty example
list. -/
theorem generation_success_validates_spec
    (m : Mcp) (store : Except RetrieveError (List Chunk))
    (llm : String → Except ChainError Json) (now : Nat) (d : McpDefinition)
    (h : (generate_mcp_json m store llm now).response = .ok d) :
    ∃ j kvs,
      llm (humanPrompt m (generationContextBlock store m.owner_id m.id)) = .ok j ∧
      (generate_mcp_json m store llm now).record.definition_json = some j ∧
      McpDefinition.validate j = some d ∧
      j = .obj kvs ∧
      (lookupKey kvs "system_prompt").bind Json.asString = some d.system_prompt ∧
      (lookupKey kvs "input_schema_description").bind Json.asString
        = some d.input_schema_description ∧
      (lookupKey kvs "output_schema_description").bind Json.asString
        = some d.output_schema_description ∧
      (lookupKey kvs "constraints").bind Json.asStringList = some d.constraints ∧
      (lookupKey kvs "examples" = none → d.examples = []) := by
  cases hllm : llm (humanPrompt m (generationContextBlock store m.owner_id m.id)) with
  | error e =>
    simp only [generate_mcp_json, hllm] at h
    exact absurd h (by simp)
  | ok j =>
    cases hval : McpDefinition.validate j with
    | none =>
      simp only [generate_mcp_json, hllm, hval] at h
      exact absurd h (by simp)
    | some d' =>
      simp only [generate_mcp_json, hllm, hval, Except.ok.injEq] at h
      subst h
      refine ⟨j, ?_⟩
      cases j with
      | obj kvs =>
        refine ⟨kvs, rfl, ?_, hval, rfl, ?_⟩
        · simp only [generate_mcp_json, hllm, hval]
        · simp only [McpDefinition.validate] at hval
          split at hval
          · rename_i sp isd osd cs exs hsp hisd hosd hcs hexs
            simp only [Option.some.injEq] at hval
            subst hval
            refine ⟨hsp, hisd, hosd, hcs, ?_⟩
            intro hnone
            rw [hnone] at hexs
            simpa using hexs.symm
          · exact absurd hval (by simp)
      | null => simp [McpDefinition.validate] at hval
      | bool b => simp [McpDefinition.validate] at hval
      | num n => simp [McpDefinition.validate] at hval
      | str s => simp [McpDefinition.validate] at hval
      | arr xs => simp [McpDefinition.validate] at hval

/-- Witness for C3 (amended) at a concrete successful run. -/
theorem generation_success_validates_spec_witness :
    ∃ j kvs,
      (fun _ : String => (.ok d0.toJson : Except ChainError Json))
        (humanPrompt m0 (generationContextBlock (.ok []) m0.owner_id m0.id)) = .ok j ∧
      (generate_mcp_json m0 (.ok []) (fun _ => .ok d0.toJson) 5).record.definition_json
        = some j ∧
      McpDefinition.validate j = some d0 ∧
      j = .obj kvs ∧
      (lookupKey kvs "system_prompt").bind Json.asString = some d0.system_prompt ∧
      (lookupKey kvs "input_schema_description").bind Json.asString
        = some d0.input_schema_description ∧
      (lookupKey kvs "output_schema_description").bind Json.asString
        = some d0.output_schema_description ∧
      (lookupKey kvs "constraints").bind Json.asStringList = some d0.constraints ∧
      (lookupKey kvs "examples" = none → d0.examples = []) :=
  generation_success_validates_spec m0 (.ok []) (fun _ => .ok d0.toJson) 5 d0 rfl

/-- Validating a serialized string list recovers the original list. -/
lemma traverseOpt_asString_map (cs : List String) :
    traverseOpt Json.asString (cs.map Json.str) = some cs := by
  induction cs with
  | nil => rfl
  | cons c cs ih => simp [traverseOpt, Json.asString, ih]

/-- Validating a serialized example item recovers the original item. -/
lemma parseExampleItem_toJson (e : McpExampleItem) :
    parseExampleItem e.toJson = some e := rfl

/-- Validating a serialized example list recovers the original list. -/
lemma traverseOpt_parseExample_map (exs : List McpExampleItem) :
    traverseOpt parseExampleItem (exs.map McpExampleItem.toJson) = some exs := by
  induction exs with
  | nil => rfl
  | cons e es ih => simp [traverseOpt, parseExampleItem_toJson, ih]

/-- Schema validation is a left inverse of serialization: re-validating the
stored JSON form of a definition recovers every field, the list fields in
their exact stored order. -/
lemma McpDefinition.validate_toJson (d : McpDefinition) :
    McpDefinition.validate d.toJson = some d := by
  cases d with
  | mk sp isd osd cs exs =>
    simp [McpDefinition.validate, McpDefinition.toJson, lookupKey,
      Json.asString, Json.asStringList, traverseOpt_asString_map,
      traverseOpt_parseExample_map]

/-- Claim C9: exporting a persisted structured definition returns the
stored JSON unchanged, and re-validating that JSON reproduces exactly the
fields of the definition with list ordering preserved; empty `constraints`
and `examples` lists are reproduced as empty JSON arrays, not null. -/
theorem export_roundtrip_spec (m : Mcp) (d : McpDefinition)
    (h : m.definition_json = some d.toJson) :
    export_mcp_json (some m) = .ok d.toJson ∧
    McpDefinition.validate d.toJson = some d ∧
    jsonField d.toJson "constraints" = some (.arr (d.constraints.map Json.str)) ∧
    jsonField d.toJson "examples"
      = some (.arr (d.examples.map McpExampleItem.toJson)) ∧
    (d.constraints = [] → jsonField d.toJson "constraints" = some (.arr [])) ∧
    (d.examples = [] → jsonField d.toJson "examples" = some (.arr [])) := by
  refine ⟨?_, McpDefinition.validate_toJson d, ?_, ?_, ?_, ?_⟩
  · simp [export_mcp_json, h, Json.truthy, McpDefinition.toJson]
  · simp [jsonField, McpDefinition.toJson, lookupKey]
  · simp [jsonField, McpDefinition.toJson, lookupKey]
  · intro hc
    simp [jsonField, McpDefinition.toJson, lookupKey, hc]
  · intro he
    simp [jsonField, McpDefinition.toJson, lookupKey, he]

/-- Witness for C9 at a concrete record holding a definition with empty
constraint and example lists. -/
theorem export_roundtrip_spec_witness :
    export_mcp_json (some m1) = .ok d1.toJson ∧
    McpDefinition.validate d1.toJson = some d1 ∧
    jsonField d1.toJson "constraints" = some (.arr (d1.constraints.map Json.str)) ∧
    jsonField d1.toJson "examples"
      = some (.arr (d1.examples.map McpExampleItem.toJson)) ∧
    (d1.constraints = [] → jsonField d1.toJson "constraints" = some (.arr [])) ∧
    (d1.examples = [] → jsonField d1.toJson "examples" = some (.arr [])) :=
  export_roundtrip_spec m1 d1 rfl

/-- Claim C10: an update request leaves every field that it does not set at
its prior value; a request that sets no field returns the record completely
unchanged with no database write and `updated_at` untouched; `updated_at`
is set to the request time exactly when at least one field was set; and the
identity/ownership/creation fields are never modified. -/
theorem update_frame_spec (m : Mcp) (req : McpUpdateRequest) (now : Nat) :
    (req = emptyUpdateRequest → update_mcp m req now = (m, false)) ∧
    ((update_mcp m req now).2 = false → update_mcp m req now = (m, false)) ∧
    (req.name = none → (update_mcp m req now).1.name = m.name) ∧
    (req.domain = none → (update_mcp m req now).1.domain = m.domain) ∧
    (req.goal = none → (update_mcp m req now).1.goal = m.goal) ∧
    (req.roles = none → (update_mcp m req now).1.roles = m.roles) ∧
    (req.generated_content = none →
      (update_mcp m req now).1.generated_content = m.generated_content) ∧
    (req.constraints = none →
      (update_mcp m req now).1.constraints = m.constraints) ∧
    (req.definition_json = none →
      (update_mcp m req now).1.definition_json = m.definition_json) ∧
    ((update_mcp m req now).1.id = m.id ∧
      (update_mcp m req now).1.owner_id = m.owner_id ∧
      (update_mcp m req now).1.created_at = m.created_at) ∧
    ((req.generated_content.isSome ∨ req.constraints.isSome ∨
        req.definition_json.isSome ∨ req.name.isSome ∨ req.domain.isSome ∨
        req.goal.isSome ∨ req.roles.isSome) →
      (update_mcp m req now).1.updated_at = now ∧ (update_mcp m req now).2 = true) ∧
    ((update_mcp m req now).2 = false → (update_mcp m req now).1.updated_at
      = m.updated_at) := by
  have hfalse : (update_mcp m req now).2 = false → update_mcp m req now = (m, false) := by
    intro h2
    simp only [update_mcp] at h2 ⊢
    split at h2
    · simp at h2
    · rename_i hcond
      rw [if_neg hcond]
  refine ⟨?_, hfalse, ?_, ?_, ?_, ?_, ?_, ?_, ?_, ?_, ?_, ?_⟩
  · intro h
    subst h
    rfl
  · intro h
    simp only [update_mcp]
    split <;> simp [h]
  · intro h
    simp only [update_mcp]
    split <;> simp [h]
  · intro h
    simp only [update_mcp]
    split <;> simp [h]
  · intro h
    simp only [update_mcp]
    split <;> simp [h]
  · intro h
    simp only [update_mcp]
    split <;> simp [h]
  · intro h
    simp only [update_mcp]
    split <;> simp [h]
  · intro h
    simp only [update_mcp]
    split <;> simp [h]
  · simp only [update_mcp]
    split
    · exact ⟨rfl, rfl, rfl⟩
    · exact ⟨rfl, rfl, rfl⟩
  · intro hh
    simp only [update_mcp]
    split
    · exact ⟨rfl, rfl⟩
    · rename_i hcond
      rcases hh with hh | hh | hh | hh | hh | hh | hh <;> simp [hh] at hcond
  · intro h2
    rw [hfalse h2]

/-- Witness for C10: the empty request leaves a concrete record untouched
with no write, and a request setting only the name bumps the timestamp. -/
theorem update_frame_spec_witness :
    update_mcp m1 emptyUpdateRequest 99 = (m1, false) ∧
    ((update_mcp m1 ⟨none, none, none, some "New Name", none, none, none⟩ 99).1.updated_at
        = 99 ∧
      (update_mcp m1 ⟨none, none, none, some "New Name", none, none, none⟩ 99).2
        = true) ∧
    (update_mcp m1 ⟨none, none, none, some "New Name", none, none, none⟩ 99).1.goal
      = m1.goal :=
  ⟨(update_frame_spec m1 emptyUpdateRequest 99).1 rfl,
   (update_frame_spec m1 ⟨none, none, none, some "New Name", none, none, none⟩ 99).2.2.2.2.2.2.2.2.2.2.1
     (Or.inr (Or.inr (Or.inr (Or.inl rfl)))),
   (update_frame_spec m1 ⟨none, none, none, some "New Name", none, none, none⟩ 99).2.2.2.2.1 rfl⟩

end IntelliMCP
